import Mathlib

/- Verification development for the dma_sdk client library
   (src/dma_sdk/__init__.py): shallow embedding of the data model, the
   polling loop `_wait_for_translation_results`, the report renderer
   `_translation_results_html` / `_render_translated_model_as_html`, the
   natural sort key, and the host resolver `_get_host`. -/

set_option maxRecDepth 100000

/-- Embedding of Python `html.escape` on a single character (with the default
`quote=True`): `&`, `<`, `>`, `"` and the apostrophe become HTML entities,
every other character is unchanged. -/
def htmlEscapeChar (c : Char) : String :=
  if c = '&' then "&amp;"
  else if c = '<' then "&lt;"
  else if c = '>' then "&gt;"
  else if c = '"' then "&quot;"
  else if c = '\x27' then "&#x27;"
  else String.singleton c

/-- Embedding of Python `html.escape`: Python performs sequential whole-string
replacements of the five escapable characters; since no replacement text contains a
character replaced later, this equals the character-wise map. -/
def htmlEscape (s : String) : String :=
  String.join (s.data.map htmlEscapeChar)

/-- Embedding of Python `str.strip()` with no argument: drop leading and
trailing whitespace. -/
def pyStrip (s : String) : String :=
  String.mk (((s.data.dropWhile Char.isWhitespace).reverse.dropWhile Char.isWhitespace).reverse)

/-- Normalize the line terminators handled by Python `str.splitlines` that can
occur in SQL text: a carriage-return/line-feed pair or a lone carriage return
count as one line break. -/
def normalizeNewlines : List Char → List Char
  | [] => []
  | '\x0d' :: '\n' :: cs => '\n' :: normalizeNewlines cs
  | '\x0d' :: cs => '\n' :: normalizeNewlines cs
  | c :: cs => c :: normalizeNewlines cs

def splitOnNewlineAux : List Char → List Char → List String
  | acc, [] => if acc.isEmpty then [] else [String.mk acc.reverse]
  | acc, c :: cs =>
    if c = '\n' then String.mk acc.reverse :: splitOnNewlineAux [] cs
    else splitOnNewlineAux (c :: acc) cs

/-- Embedding of Python `str.splitlines()`: split at line breaks, no trailing
empty line for a trailing terminator, `""` gives `[]`. -/
def pySplitlines (s : String) : List String :=
  splitOnNewlineAux [] (normalizeNewlines s.data)

def pyTitleAux : Bool → List Char → List Char
  | _, [] => []
  | prevAlpha, c :: cs =>
    (if c.isAlpha then (if prevAlpha then c.toLower else c.toUpper) else c)
      :: pyTitleAux c.isAlpha cs

/-- Embedding of Python `str.title()` (ASCII letters, which covers the
database type names used by the renderer): the first letter of every run of
letters is upper-cased, the rest lower-cased. -/
def pyTitle (s : String) : String := String.mk (pyTitleAux false s.data)

def patAt : List Char → List Char → Bool
  | [], _ => true
  | _ :: _, [] => false
  | p :: ps, c :: cs => p == c && patAt ps cs

def patOccurs (pat : List Char) : List Char → Bool
  | [] => pat.isEmpty
  | c :: cs => patAt pat (c :: cs) || patOccurs pat cs

/-- Decidable substring test, used to state occurrence and absence of markup
fragments in rendered output. -/
def containsSub (s pat : String) : Bool := patOccurs pat.data s.data

/-- Embedding of Python `str.startswith`: code-point-wise prefix test. -/
def strStartsWith (s pat : String) : Bool := patAt pat.data s.data

/-- Embedding of Python slicing `s[n:]`: drop the first `n` code points. -/
def pyDrop (s : String) (n : Nat) : String := String.mk (s.data.drop n)

/-- `DEFAULT_HOST` from line 19 of the source. -/
def DEFAULT_HOST : String := "https://app.datafold.com"

/-- `TranslationStatus.VALID_TRANSLATION` (the `str` enum member compares
equal to its string value). -/
def VALID_TRANSLATION : String := "valid_translation"

/-- `TranslationJobStatus.DONE`. -/
def JOB_DONE : String := "done"

/-- `TranslationJobStatus.FAILED`. -/
def JOB_FAILED : String := "failed"

/-- The structured `failure_summary` dictionary attached to a translated
model; each field is read with a `.get` defaulting to the empty string, so missing keys are `none`. -/
structure FailureSummary where
  problem : Option String
  error_message : Option String
  solution : Option String
  location : Option String
  reason : Option String
  deriving DecidableEq

/-- One entry of the `translated_models` collection of a job result. -/
structure TranslatedModel where
  source_filename : Option String
  asset_name : String
  translation_status : String
  source_sql : String
  target_sql : Option String
  failure_summary : Option FailureSummary
  deriving DecidableEq

/-- The raw response body of one successful status request: a status string
and the translated models. -/
structure ServiceResult where
  status : String
  translated_models : List TranslatedModel
  deriving DecidableEq

/-- The dictionary consumed by `_translation_results_html`: the terminal
service response with the accumulated error log attached under the
`_polling_errors` key (the `.get` read with default empty list makes a missing key the
empty list). -/
structure TranslationResults where
  status : String
  translated_models : List TranslatedModel
  polling_errors : List String
  deriving DecidableEq

/-- Python truthiness of an optional string read from a dictionary: a missing
key, a `None` value and the empty string are all falsy. -/
def truthy (o : Option String) : Bool := !((o.getD ("")) == "")

/-- The `source_filename`-or-`asset_name` identifier fallback of lines 735 and
746: the Python `or` falls through both on a missing/None `source_filename`
and on an empty one. -/
def modelFilename (m : TranslatedModel) : String :=
  match m.source_filename with
  | some s => if s = "" then m.asset_name else s
  | none => m.asset_name
def stylePlusScript : String :=
  "\n    <style>\n        .polling-warnings \x7b\n            margin: 15px 0;\n            font-family: sans-serif;\n        \x7d\n        .polling-warnings-summary \x7b\n            cursor: pointer;\n            padding: 8px 12px;\n            background-color: #f8f9fa;\n            border: 1px solid #dee2e6;\n            border-radius: 4px;\n            color: #6c757d;\n            font-size: 14px;\n            user-select: none;\n            outline: none;\n        \x7d\n        .polling-warnings-summary:hover \x7b\n            background-color: #e9ecef;\n        \x7d\n        .polling-warnings-content \x7b\n            padding: 12px;\n            margin-top: 5px;\n            background-color: #f8f9fa;\n            border: 1px solid #dee2e6;\n            border-radius: 4px;\n        \x7d\n        .polling-error-item \x7b\n            color: #6c757d;\n            font-size: 13px;\n            padding: 4px 0;\n            font-family: monospace;\n        \x7d\n        .collapsible \x7b\n            background-color: #f1f1f1;\n            color: #333;\n            cursor: pointer;\n            padding: 18px;\n            width: 100%;\n            border: 1px solid #ddd;\n            text-align: left;\n            outline: none;\n            font-size: 16px;\n            font-family: sans-serif;\n            margin-top: 10px;\n            transition: background-color 0.3s;\n        \x7d\n        .collapsible:hover \x7b\n            background-color: #e0e0e0;\n        \x7d\n        .collapsible.active \x7b\n            background-color: #d0d0d0;\n        \x7d\n        .collapsible::before \x7b\n            content: \x27▶ \x27;\n            display: inline-block;\n            margin-right: 8px;\n            transition: transform 0.3s;\n        \x7d\n        .collapsible.active::before \x7b\n            transform: rotate(90deg);\n        \x7d\n        .content \x7b\n            padding: 0 18px;\n            max-height: 0;\n            overflow: hidden;\n            transition: max-height 0.3s ease-out;\n            background-color: white;\n        \x7d\n        .content.active \x7b\n            max-height: 10000px;\n            padding: 18px;\n        \x7d\n    </style>\n    \n    <script>\n        function toggleCollapse(element) \x7b\n            element.classList.toggle(\x27active\x27);\n            const content = element.nextElementSibling;\n            content.classList.toggle(\x27active\x27);\n        \x7d\n    </script>\n    "

def sectionPartA : String :=
  "\n        <button class=\"collapsible\" onclick=\"toggleCollapse(this)\">\n            "

def sectionPartB : String :=
  "\n        </button>\n        <div class=\"content\">\n            "

def sectionPartC : String :=
  "\n        </div>\n        "

def failurePartA : String :=
  "\n                <div class=\"failure-section\">\n                    <div class=\"failure-label\">Problem:</div>\n                    <div class=\"failure-text\">"

def failurePartB : String :=
  "</div>\n                </div>\n                "

def failurePartC : String :=
  "\n                <div class=\"failure-section\">\n                    <div class=\"failure-label\">Error:</div>\n                    <div class=\"failure-text\">"

def failurePartD : String :=
  "</div>\n                </div>\n                <div class=\"failure-section\">\n                    <div class=\"failure-label\">Solution:</div>\n                    <div class=\"failure-text\">"

def failurePartE : String :=
  "</div>\n                </div>\n                <div class=\"failure-section\">\n                    <div class=\"failure-label\">Reason:</div>\n                    <div class=\"failure-text\">"

def failurePartF : String :=
  "</div>\n                </div>\n            "

def locationDivA : String :=
  "<div class=\"failure-section\"><div class=\"failure-label\">Location:</div><div class=\"failure-text\">"

def locationDivB : String :=
  "</div></div>"

def genericMessageA : String :=
  "<div class=\"warning-message\">The translation could not be completed. Status: "

def genericMessageB : String :=
  "</div>"

def warningWrapA : String :=
  "\n        <details class=\"warning-details\">\n            <summary class=\"warning-summary\">Warnings</summary>\n            <div class=\"warning-content\">\n                "

def warningWrapB : String :=
  "\n            </div>\n        </details>\n        "

def lineUnchangedA : String :=
  "<div class=\"line unchanged\">"

def lineRemovedA : String :=
  "<div class=\"line removed\">"

def lineAddedA : String :=
  "<div class=\"line added\">"

def lineDivB : String :=
  "</div>"

def diffPartA : String :=
  "\n        <div class=\"sql-container\">\n            <div class=\"sql-column\">\n                <h3>"

def diffPartB : String :=
  " SQL</h3>\n                <pre><code class=\"language-sql\">"

def diffPartC : String :=
  "</code></pre>\n            </div>\n            <div class=\"sql-column\">\n                <h3>"

def diffPartD : String :=
  " SQL</h3>\n                <pre><code class=\"language-sql\">"

def diffPartE : String :=
  "</code></pre>\n            </div>\n        </div>\n        "

def renderTemplateA : String :=
  "\n    <style>\n        .warning-details \x7b\n            margin: 10px 0;\n            font-family: sans-serif;\n        \x7d\n        .warning-summary \x7b\n            cursor: pointer;\n            padding: 8px 12px;\n            background-color: #f8f9fa;\n            border: 1px solid #dee2e6;\n            border-radius: 4px;\n            color: #6c757d;\n            font-size: 14px;\n            user-select: none;\n            outline: none;\n        \x7d\n        .warning-summary:hover \x7b\n            background-color: #e9ecef;\n        \x7d\n        .warning-content \x7b\n            padding: 15px;\n            margin-top: 5px;\n            background-color: #f8f9fa;\n            border: 1px solid #dee2e6;\n            border-radius: 4px;\n        \x7d\n        .warning-message \x7b\n            color: #495057;\n            font-size: 14px;\n        \x7d\n        .failure-section \x7b\n            margin: 12px 0;\n        \x7d\n        .failure-label \x7b\n            color: #495057;\n            font-weight: bold;\n            font-size: 13px;\n            margin-bottom: 4px;\n        \x7d\n        .failure-text \x7b\n            color: #6c757d;\n            font-size: 13px;\n            line-height: 1.5;\n            white-space: pre-wrap;\n        \x7d\n        .sql-container \x7b\n            display: flex;\n            gap: 20px;\n        \x7d\n        .sql-column \x7b\n            flex: 1;\n            border: 1px solid #ddd;\n            background-color: #f5f5f5;\n            overflow-x: auto;\n        \x7d\n        .sql-column h3 \x7b\n            margin: 0;\n            padding: 15px 15px 10px 15px;\n            color: #333;\n            font-family: sans-serif;\n            font-size: 16px;\n            background-color: #e8e8e8;\n            border-bottom: 2px solid #ccc;\n        \x7d\n        .sql-column pre \x7b\n            margin: 0;\n            padding: 15px;\n            overflow-x: auto;\n            background-color: #f8f8f8;\n        \x7d\n        .sql-column code \x7b\n            font-family: \x27Monaco\x27, \x27Menlo\x27, \x27Ubuntu Mono\x27, \x27Consolas\x27, \x27source-code-pro\x27, monospace;\n            font-size: 13px;\n            line-height: 1.6;\n        \x7d\n        .line \x7b\n            display: block;\n            padding: 2px 4px;\n            margin: 1px 0;\n            white-space: pre;\n            border-radius: 2px;\n        \x7d\n        .unchanged \x7b\n            background-color: transparent;\n            color: #24292e;\n        \x7d\n        .removed \x7b\n            background-color: #ffeef0;\n            color: #d73a49;\n            border-left: 3px solid #d73a49;\n            padding-left: 8px;\n        \x7d\n        .added \x7b\n            background-color: #e6ffed;\n            color: #22863a;\n            border-left: 3px solid #22863a;\n            padding-left: 8px;\n        \x7d\n    </style>\n\n    "

def renderTemplateB : String :=
  "\n    "


/-- Numeric value of a run of decimal digit characters, as Python `int`. -/
def digitsToNat (ds : List Char) : Nat :=
  ds.foldl (fun n c => n * 10 + (c.toNat - '0'.toNat)) 0

/-- The first maximal run of decimal digits in a character list, as found by
the first match of the digit-run regular expression; `none` when there is no digit. -/
def firstDigitRun : List Char → Option (List Char)
  | [] => none
  | c :: cs =>
    if c.isDigit then some (c :: cs.takeWhile Char.isDigit) else firstDigitRun cs

/-- The natural-sort key of an identifier string: primary component the
integer value of the first digit run (`0` when there is none), secondary
component the string itself. -/
def sortKeyOfName (s : String) : Nat × String :=
  match firstDigitRun s.data with
  | some ds => (digitsToNat ds, s)
  | none => (0, s)

/-- Embedding of `natural_sort_key` (lines 733-740). -/
def natural_sort_key (m : TranslatedModel) : Nat × String :=
  let filename := modelFilename m
  match firstDigitRun filename.data with
  | some ds => (digitsToNat ds, filename)
  | none => (0, filename)

/-- Python tuple `<` on `(int, str)` keys: lexicographic, with `<` on strings
the code-point lexicographic order. -/
def keyLt (x y : Nat × String) : Prop :=
  x.1 < y.1 ∨ (x.1 = y.1 ∧ x.2 < y.2)

instance (x y : Nat × String) : Decidable (keyLt x y) := by
  unfold keyLt; infer_instance

/-- The non-strict key order used by a Python stable sort. -/
def keyLe (x y : Nat × String) : Prop := ¬ keyLt y x

instance (x y : Nat × String) : Decidable (keyLe x y) := by
  unfold keyLe; infer_instance

/-- Comparison of models by their natural-sort key. -/
def modelLe (m1 m2 : TranslatedModel) : Prop :=
  keyLe (natural_sort_key m1) (natural_sort_key m2)

instance : DecidableRel modelLe := fun m1 m2 => by
  unfold modelLe; infer_instance

/-- Embedding of `sorted(models, key=natural_sort_key)` (line 743): Python
`sorted` is a stable sort by the tuple order of the keys; for a total preorder every
stable sort computes the same list, so insertion sort by `modelLe` agrees with
it. -/
def sortModels (ms : List TranslatedModel) : List TranslatedModel :=
  List.insertionSort modelLe ms

/-- The success/warning marker of line 749, chosen by comparing the status
with VALID_TRANSLATION. -/
def iconFor (status : String) : String :=
  if status = VALID_TRANSLATION then "✅" else "⚠️"

/-- `button_text = f"{icon} {filename}"` (line 750). -/
def buttonTextFor (m : TranslatedModel) : String :=
  iconFor m.translation_status ++ " " ++ modelFilename m

/-- `status != TranslationStatus.VALID_TRANSLATION` (line 875). -/
def is_failed (m : TranslatedModel) : Bool :=
  !(m.translation_status == VALID_TRANSLATION)

/-- The target-sql read of line 869: a missing or None value becomes the
empty string via the Python `or`. -/
def target_sql_or_empty (m : TranslatedModel) : String := m.target_sql.getD ("")

/-- `has_translation_result = target_sql and target_sql.strip()` used as a
condition (lines 874, 926): truthy iff the target text is non-empty and not
all whitespace. -/
def has_translation_result (m : TranslatedModel) : Bool :=
  !((target_sql_or_empty m) == "") && !((pyStrip (target_sql_or_empty m)) == "")

/-- The `failure_content` string of `_render_translated_model_as_html`
(lines 880-913): with a structured summary, the labeled Problem /
optional Location / Error / Solution / Reason fields, every value passed
through `html.escape`; without one, the generic one-line message naming the
escaped status. -/
def failureContentFor (m : TranslatedModel) : String :=
  match m.failure_summary with
  | some fs =>
    let problem := htmlEscape (fs.problem.getD (""))
    let error_message := htmlEscape (fs.error_message.getD (""))
    let solution := htmlEscape (fs.solution.getD (""))
    let location : Option String :=
      if truthy fs.location then some (htmlEscape (fs.location.getD (""))) else none
    let reason := htmlEscape (fs.reason.getD (""))
    failurePartA ++ problem ++ failurePartB ++
      (match location with
       | some loc => locationDivA ++ loc ++ locationDivB
       | none => "") ++
      failurePartC ++ error_message ++ failurePartD ++ solution ++
      failurePartE ++ reason ++ failurePartF
  | none => genericMessageA ++ htmlEscape m.translation_status ++ genericMessageB

/-- The `warning_html` string (lines 878-922): empty unless the model failed,
otherwise the collapsed Warnings details wrapper around the failure
content. -/
def warningHtmlFor (m : TranslatedModel) : String :=
  if is_failed m then warningWrapA ++ failureContentFor m ++ warningWrapB else ""

def lcsLenFuel : Nat → List String → List String → Nat
  | 0, _, _ => 0
  | _ + 1, [], _ => 0
  | _ + 1, _ :: _, [] => 0
  | fuel + 1, x :: xs, y :: ys =>
    if x = y then lcsLenFuel fuel xs ys + 1
    else max (lcsLenFuel fuel xs (y :: ys)) (lcsLenFuel fuel (x :: xs) ys)

/-- Length of a longest common subsequence of two line lists. Each recursive
step shortens the combined length by at least one, so a fuel equal to the
combined length makes the fuel-indexed structural recursion total without
ever hitting the out-of-fuel base case. -/
def lcsLen (xs ys : List String) : Nat := lcsLenFuel (xs.length + ys.length) xs ys

/-- Modelled from the spec: the renderer calls `difflib.Differ().compare`
(Python standard library, not part of this repository), which the spec
describes as a classic line-oriented sequence-alignment diff producing
two-character tagged lines: unchanged lines tagged with two spaces, lines only
in the source tagged with a minus, lines only in the target tagged with a
plus, and intra-line hint lines tagged with a question mark. We model the
alignment as a longest-common-subsequence line diff; hint lines arise only
from the intra-line similarity heuristic and are modelled as absent (the
renderer discards them unexamined either way). The fuel argument equals the
combined length at the top-level call and decreases in step with it, so the
out-of-fuel base case is never reached. -/
def differCompareFuel : Nat → List String → List String → List String
  | 0, xs, ys => xs.map (fun x2 => "- " ++ x2) ++ ys.map (fun y2 => "+ " ++ y2)
  | _ + 1, [], ys => ys.map (fun y => "+ " ++ y)
  | _ + 1, x :: xs, [] => (x :: xs).map (fun x2 => "- " ++ x2)
  | fuel + 1, x :: xs, y :: ys =>
    if x = y then ("  " ++ x) :: differCompareFuel fuel xs ys
    else if lcsLen (x :: xs) ys ≤ lcsLen xs (y :: ys) then
      ("- " ++ x) :: differCompareFuel fuel xs (y :: ys)
    else ("+ " ++ y) :: differCompareFuel fuel (x :: xs) ys

/-- The modelled `difflib.Differ().compare` on two line lists. -/
def differCompare (xs ys : List String) : List String :=
  differCompareFuel (xs.length + ys.length) xs ys

/-- The `while i < len(diff)` loop of `_render_translated_model_as_html`
(lines 936-956): one pass over the tagged diff lines building the left
(source) and right (target) columns; an unchanged line is emitted into both,
a minus line only into the left as removed, a plus line only into the right
as added, hint lines and anything else are skipped; every emitted content is
`html.escape`d. -/
def buildDiffColumns : List String → List String × List String
  | [] => ([], [])
  | line :: rest =>
    let cols := buildDiffColumns rest
    if strStartsWith line ("  ") then
      ((lineUnchangedA ++ htmlEscape (pyDrop line 2) ++ lineDivB) :: cols.1,
       (lineUnchangedA ++ htmlEscape (pyDrop line 2) ++ lineDivB) :: cols.2)
    else if strStartsWith line ("- ") then
      ((lineRemovedA ++ htmlEscape (pyDrop line 2) ++ lineDivB) :: cols.1, cols.2)
    else if strStartsWith line ("+ ") then
      (cols.1, (lineAddedA ++ htmlEscape (pyDrop line 2) ++ lineDivB) :: cols.2)
    else cols

/-- The two diff columns computed for a source/target text pair
(lines 927-956). -/
def diffColumnsFor (source_sql target_sql : String) : List String × List String :=
  buildDiffColumns (differCompare (pySplitlines source_sql) (pySplitlines target_sql))

/-- The `diff_html` string (lines 925-969): empty without a usable target
text, otherwise the two-column container with title-cased headers and the
joined column lines. -/
def diffHtmlFor (m : TranslatedModel) (source_type target_type : String) : String :=
  if has_translation_result m then
    let cols := diffColumnsFor m.source_sql (target_sql_or_empty m)
    diffPartA ++ pyTitle source_type ++ diffPartB ++ String.join cols.1 ++
      diffPartC ++ pyTitle target_type ++ diffPartD ++ String.join cols.2 ++ diffPartE
  else ""

/-- The `content_html` string (lines 972-974). -/
def contentHtmlFor (m : TranslatedModel) (source_type target_type : String) : String :=
  let c := warningHtmlFor m ++ diffHtmlFor m source_type target_type
  if c = "" then "<p>No translation results available.</p>" else c

/-- Embedding of `_render_translated_model_as_html` (lines 854-1078): the
fixed style template around the assembled content. -/
def _render_translated_model_as_html
    (m : TranslatedModel) (source_type target_type : String) : String :=
  renderTemplateA ++ contentHtmlFor m source_type target_type ++ renderTemplateB

/-- One collapsible section of the report (lines 751-760): the button labeled
with the marker and the identifier, then the rendered model. The identifier
is interpolated into `button_text` without passing through `html.escape`. -/
def sectionHtml (m : TranslatedModel) (source_type target_type : String) : String :=
  sectionPartA ++ buttonTextFor m ++ sectionPartB ++
    _render_translated_model_as_html m source_type target_type ++ sectionPartC

/-- Python exceptions the embedded renderer can raise. -/
inductive PyExc where
  | attributeError (msg : String)
  deriving DecidableEq

/-- Embedding of `_translation_results_html` (lines 699-851). Its first
statement `html = []` makes `html` a local variable for the whole function
body, shadowing the module-level `import html`; consequently the
`html.escape(err)` call in the polling-errors branch (line 719) is an
attribute access on the local list and raises
an AttributeError (a list object has no escape attribute) whenever
`_polling_errors` is non-empty. With no polling errors the function renders
one section per model in natural-sort order, returns the fixed notice when
there are no models, and otherwise prepends the style and script blocks
(the insert at index 0 before the final join). -/
def _translation_results_html
    (tr : TranslationResults) (source_type target_type : String) : Except PyExc String :=
  if tr.polling_errors = [] then
    let models_sorted := sortModels tr.translated_models
    let sections := models_sorted.map (fun m => sectionHtml m source_type target_type)
    if tr.translated_models = [] then Except.ok ("No queries were translated.")
    else Except.ok (stylePlusScript ++ String.join sections)
  else
    Except.error (PyExc.attributeError ("\x27list\x27 object has no attribute \x27escape\x27"))

/-- Names resolvable inside `_wait_for_translation_results` when the
escalation branch (lines 677-688) runs: the parameters, the names
imported at its top (lines 580-583), every local variable assigned in its
body, and the module-level globals of `dma_sdk/__init__.py`. The f-string
built at line 680 references `max_connection_errors`, which appears nowhere in
this list (the parameter is named `max_errors`), so evaluating that f-string
raises `NameError` before the bare `raise` statement is reached. -/
def pollLoopScopeNames : List String :=
  ["api_key", "project_id", "translation_id", "poll_interval", "max_errors", "host",
   "clear_output", "HTML", "display", "sys", "requests", "urlparse",
   "url", "headers", "spinner", "spinner_speed", "last_check_time", "i",
   "connection_error_count", "error_log", "warnings_handle", "current_time",
   "response", "result", "status", "translated_models", "total_translations",
   "validated_count", "e", "error_code", "error_msg", "error_items",
   "warnings_html", "errors_html",
   "time", "difflib", "re", "html", "Enum", "List", "Dict", "Tuple",
   "prepare_api_url", "prepare_headers", "post_data", "get_data", "__all__",
   "DEFAULT_HOST", "DEFAULT_ORG_TOKEN", "TranslationJobStatus",
   "TranslationStatus", "FailureReason", "_notebook_host", "_current_api_key",
   "_identity", "_last_project_id", "_last_translation_id", "_last_source_type",
   "_last_target_type", "get_context_info", "_get_identity", "_set_identity",
   "_get_host", "_get_current_api_key", "_set_current_api_key",
   "create_organization", "translate_queries", "view_translation_results_as_html",
   "view_translation_results_as_dict", "translate_queries_and_render_results",
   "translate_queries_and_get_results", "view_last_translation",
   "_get_data_sources", "_create_dma_project", "_upload_queries",
   "_start_translation", "_wait_for_translation_results",
   "_translation_results_html", "_render_translated_model_as_html"]

/-- Whether a plain name resolves in the scope of the escalation branch. -/
def resolvesInPollLoop (n : String) : Bool := pollLoopScopeNames.contains n

/-- `status in [TranslationJobStatus.DONE, TranslationJobStatus.FAILED]`
(line 616). -/
def isTerminalStatus (s : String) : Bool := s == JOB_DONE || s == JOB_FAILED

/-- `error_log.append(f"{error_code}: {error_msg}")` (line 659). -/
def fmtPollError (error_code error_msg : String) : String :=
  error_code ++ ": " ++ error_msg

/-- The per-wait-call state of the poll loop (`PollSession` of the spec):
the consecutive-error counter and the accumulated error log. -/
structure PollState where
  connection_error_count : Nat
  error_log : List String
  deriving DecidableEq

/-- One observable interaction of the poll loop with the status endpoint:
either a successful response carrying the parsed body, or one of the caught
transient request exceptions, already classified into the formatted
`error_code` and message of lines 646-657. -/
inductive PollEvent where
  | ok (result : ServiceResult)
  | exc (error_code : String) (error_msg : String)
  deriving DecidableEq

/-- How one run of the poll loop can end. -/
inductive PollOutcome where
  | returned (r : TranslationResults)
  | reraised (error_code error_msg : String) (log_at_raise : List String)
  | nameErrorRaised (missing_name : String) (log_at_error : List String)
  | stillPolling (st : PollState)
  deriving DecidableEq

/-- The result of processing one poll event. -/
inductive PollStep where
  | next (st : PollState)
  | halt (o : PollOutcome)
  deriving DecidableEq

/-- One iteration of the `while True` body of `_wait_for_translation_results`
(lines 603-696) in which a status request was issued. On a successful
response the consecutive-error counter is reset (line 614) and, if the status
is terminal, the result is returned with the accumulated log attached under
`_polling_errors` (lines 616-636). On a caught transient exception the
counter is incremented and the formatted error appended to the log
(lines 643-659); if the counter has reached `max_errors`, the code first
builds the escalation f-string of line 680, whose reference to the undefined
name `max_connection_errors` raises `NameError`; only if that name had
resolved would the bare `raise` of line 688 re-raise the transient error. -/
def pollStep (max_errors : Nat) (st : PollState) (ev : PollEvent) : PollStep :=
  match ev with
  | PollEvent.ok r =>
    if isTerminalStatus r.status then
      PollStep.halt (PollOutcome.returned
        { status := r.status, translated_models := r.translated_models,
          polling_errors := st.error_log })
    else PollStep.next { connection_error_count := 0, error_log := st.error_log }
  | PollEvent.exc error_code error_msg =>
    if max_errors ≤ st.connection_error_count + 1 then
      if resolvesInPollLoop ("max_connection_errors") then
        PollStep.halt (PollOutcome.reraised error_code error_msg
          (st.error_log ++ [fmtPollError error_code error_msg]))
      else
        PollStep.halt (PollOutcome.nameErrorRaised ("max_connection_errors")
          (st.error_log ++ [fmtPollError error_code error_msg]))
    else
      PollStep.next (PollState.mk (st.connection_error_count + 1)
        (st.error_log ++ [fmtPollError error_code error_msg]))

/-- The poll loop over a finite list of observed events; if no event
terminates it, the loop is still running (`while True` never exits by
itself). -/
def pollRun (max_errors : Nat) : PollState → List PollEvent → PollOutcome
  | st, [] => PollOutcome.stillPolling st
  | st, ev :: evs =>
    match pollStep max_errors st ev with
    | PollStep.halt o => o
    | PollStep.next st2 => pollRun max_errors st2 evs

/-- Embedding of `_wait_for_translation_results` (lines 559-696), abstracted
over the sequence of status-request results it observes: the counter starts
at zero and the error log empty (lines 597-598). -/
def _wait_for_translation_results (max_errors : Nat) (events : List PollEvent) : PollOutcome :=
  pollRun max_errors { connection_error_count := 0, error_log := [] } events

/-- Embedding of `_get_host` (lines 106-116) with the module-level
`_notebook_host` cache passed explicitly: returns the resolved host together
with the cache value after the call. An explicit `host` is returned and
stored; otherwise the cached value, if any, is returned; otherwise
`DEFAULT_HOST`. -/
def _get_host (host : Option String) (notebook_host : Option String) : String × Option String :=
  match host with
  | some h => (h, some h)
  | none =>
    match notebook_host with
    | some h2 => (h2, notebook_host)
    | none => (DEFAULT_HOST, notebook_host)

/-- A sequence of `_get_host` calls threading the `_notebook_host` cache:
returns the list of resolved hosts and the final cache. -/
def getHostTrace : Option String → List (Option String) → List String × Option String
  | cache, [] => ([], cache)
  | cache, arg :: rest =>
    let r := _get_host arg cache
    let t := getHostTrace r.2 rest
    (r.1 :: t.1, t.2)

instance {A B : Type} [DecidableEq A] [DecidableEq B] : DecidableEq (Except A B)
  | Except.error a1, Except.error a2 =>
    if h : a1 = a2 then isTrue (by rw [h]) else isFalse (fun hh => h (Except.error.inj hh))
  | Except.error _, Except.ok _ => isFalse (fun hh => Except.noConfusion hh)
  | Except.ok _, Except.error _ => isFalse (fun hh => Except.noConfusion hh)
  | Except.ok b1, Except.ok b2 =>
    if h : b1 = b2 then isTrue (by rw [h]) else isFalse (fun hh => h (Except.ok.inj hh))

/-- A successfully translated model used as a concrete rendering input. -/
def c2model : TranslatedModel :=
  { source_filename := some ("query_1.sql"), asset_name := "query_1",
    translation_status := VALID_TRANSLATION, source_sql := "select 1",
    target_sql := some ("select 1"), failure_summary := none }

/-- A job result whose poll produced one transient error. -/
def c2results : TranslationResults :=
  { status := "done", translated_models := [c2model],
    polling_errors := ["HTTPError: 502 Server Error"] }

/-- A terminal job result with no translated models and no polling errors. -/
def c4emptyOk : TranslationResults :=
  { status := "done", translated_models := [], polling_errors := [] }

/-- A terminal job result with no translated models but one polling error. -/
def c4emptyErr : TranslationResults :=
  { status := "done", translated_models := [],
    polling_errors := ["ConnectionError: boom"] }

/-- A valid model whose identifier contains raw HTML markup characters. -/
def c9model : TranslatedModel :=
  { source_filename := none, asset_name := "<injected>&",
    translation_status := VALID_TRANSLATION, source_sql := "select 1",
    target_sql := some ("select 1"), failure_summary := none }

/-- A job result containing only `c9model`. -/
def c9results : TranslationResults :=
  { status := "done", translated_models := [c9model], polling_errors := [] }

/-- A failure summary whose `location` key is present but holds the empty
string. -/
def c8fs : FailureSummary :=
  { problem := some ("bad cast"), error_message := some ("type error"),
    solution := some ("use cast"), location := some (""),
    reason := some ("tool_error") }

/-- An invalid model carrying `c8fs`. -/
def c8model : TranslatedModel :=
  { source_filename := none, asset_name := "query_3",
    translation_status := "invalid_translation", source_sql := "select 1",
    target_sql := none, failure_summary := some c8fs }

/-- A failure summary with a non-empty location. -/
def c8fsW : FailureSummary :=
  { problem := some ("bad cast"), error_message := some ("type error"),
    solution := some ("use cast"), location := some ("line 3"),
    reason := some ("tool_error") }

/-- An invalid model carrying `c8fsW`. -/
def c8modelW : TranslatedModel :=
  { source_filename := none, asset_name := "query_4",
    translation_status := "invalid_translation", source_sql := "select 1",
    target_sql := none, failure_summary := some c8fsW }

/-- An invalid model with no structured failure summary. -/
def c8modelG : TranslatedModel :=
  { source_filename := none, asset_name := "query_5",
    translation_status := "no_translation_attempts", source_sql := "select 1",
    target_sql := none, failure_summary := none }

/-- A valid model with a non-blank target used to witness the diff path. -/
def c7model : TranslatedModel :=
  { source_filename := none, asset_name := "query_7",
    translation_status := VALID_TRANSLATION, source_sql := "a\nb\nc",
    target_sql := some ("a\nx\nc"), failure_summary := none }

/-- A valid model whose source and target differ in one line, used for the
concrete diff example. -/
def c6model : TranslatedModel :=
  { source_filename := none, asset_name := "query_6",
    translation_status := VALID_TRANSLATION, source_sql := "a\nb\nc",
    target_sql := some ("a\nx\nc"), failure_summary := none }

theorem strAppendAssoc (a b c : String) : a ++ b ++ c = a ++ (b ++ c) := by
  apply String.ext
  simp [String.data_append]

theorem strNeEmptyOfDataNeNil (s : String) (h : s.data ≠ []) : s ≠ "" := by
  intro hc
  subst hc
  exact h rfl

theorem keyLt_irrefl (x : Nat × String) : ¬ keyLt x x := by
  rintro (h | ⟨_, h⟩)
  · exact lt_irrefl _ h
  · exact lt_irrefl _ h

theorem keyLt_trans {x y z : Nat × String} (h1 : keyLt x y) (h2 : keyLt y z) :
    keyLt x z := by
  rcases h1 with h1 | ⟨e1, h1⟩ <;> rcases h2 with h2 | ⟨e2, h2⟩
  · exact Or.inl (lt_trans h1 h2)
  · exact Or.inl (e2 ▸ h1)
  · exact Or.inl (e1 ▸ h2)
  · exact Or.inr ⟨e1.trans e2, lt_trans h1 h2⟩

theorem keyLt_asymm {x y : Nat × String} (h1 : keyLt x y) (h2 : keyLt y x) :
    False :=
  keyLt_irrefl x (keyLt_trans h1 h2)

theorem keyLt_trichotomy (x y : Nat × String) : keyLt x y ∨ x = y ∨ keyLt y x := by
  rcases Nat.lt_trichotomy x.1 y.1 with h | h | h
  · exact Or.inl (Or.inl h)
  · rcases lt_trichotomy x.2 y.2 with h2 | h2 | h2
    · exact Or.inl (Or.inr ⟨h, h2⟩)
    · exact Or.inr (Or.inl (Prod.ext h h2))
    · exact Or.inr (Or.inr (Or.inr ⟨h.symm, h2⟩))
  · exact Or.inr (Or.inr (Or.inl h))

instance : IsTotal TranslatedModel modelLe := by
  constructor
  intro a b
  unfold modelLe keyLe
  rcases keyLt_trichotomy (natural_sort_key a) (natural_sort_key b) with h | h | h
  · exact Or.inl (fun hc => keyLt_asymm h hc)
  · exact Or.inl (h ▸ keyLt_irrefl _)
  · exact Or.inr (fun hc => keyLt_asymm h hc)

instance : IsTrans TranslatedModel modelLe := by
  constructor
  intro a b c h1 h2
  unfold modelLe keyLe at *
  intro hc
  rcases keyLt_trichotomy (natural_sort_key b) (natural_sort_key c) with hbc | hbc | hbc
  · exact h1 (keyLt_trans hbc hc)
  · exact h1 (by rw [hbc]; exact hc)
  · exact h2 hbc

theorem pollRun_consume_errs (max_errors : Nat) (errs : List (String × String))
    (st : PollState) (rest : List PollEvent)
    (h : st.connection_error_count + errs.length < max_errors) :
    pollRun max_errors st (errs.map (fun p => PollEvent.exc p.1 p.2) ++ rest)
      = pollRun max_errors
          (PollState.mk (st.connection_error_count + errs.length)
            (st.error_log ++ errs.map (fun p => fmtPollError p.1 p.2)))
          rest := by
  induction errs generalizing st with
  | nil =>
    simp only [List.map_nil, List.nil_append, List.length_nil, Nat.add_zero, List.append_nil]
  | cons p ps ih =>
    have hlen : st.connection_error_count + (ps.length + 1) < max_errors := by
      simpa using h
    have hstep : pollStep max_errors st (PollEvent.exc p.1 p.2)
        = PollStep.next (PollState.mk (st.connection_error_count + 1)
            (st.error_log ++ [fmtPollError p.1 p.2])) := by
      simp only [pollStep]
      rw [if_neg (by omega)]
    calc pollRun max_errors st ((p :: ps).map (fun q => PollEvent.exc q.1 q.2) ++ rest)
        = pollRun max_errors (PollState.mk (st.connection_error_count + 1)
            (st.error_log ++ [fmtPollError p.1 p.2]))
            (ps.map (fun q => PollEvent.exc q.1 q.2) ++ rest) := by
          simp only [List.map_cons, List.cons_append, pollRun, hstep]
          rfl
      _ = pollRun max_errors (PollState.mk (st.connection_error_count + 1 + ps.length)
            ((st.error_log ++ [fmtPollError p.1 p.2]) ++
              ps.map (fun q => fmtPollError q.1 q.2)))
            rest :=
          ih (PollState.mk (st.connection_error_count + 1)
            (st.error_log ++ [fmtPollError p.1 p.2]))
            (show st.connection_error_count + 1 + ps.length < max_errors by omega)
      _ = pollRun max_errors (PollState.mk (st.connection_error_count + (p :: ps).length)
            (st.error_log ++ (p :: ps).map (fun q => fmtPollError q.1 q.2)))
            rest := by
          apply congrArg (fun s2 => pollRun max_errors s2 rest)
          rw [PollState.mk.injEq]
          refine ⟨by simp only [List.length_cons]; omega, ?_⟩
          simp only [List.map_cons, List.append_assoc, List.singleton_append]

/-- C1: the claim fails on this code. With `max_errors = 5` and five
consecutive transient errors, the escalation branch evaluates the f-string of
line 680, whose reference to the undefined name `max_connection_errors`
raises `NameError`; the loop therefore terminates with that `NameError`
instead of re-raising the fifth transient error (the accumulated log does
hold exactly five entries at that moment). -/
theorem C1_escalation_raises_NameError :
    _wait_for_translation_results 5
        (List.replicate 5 (PollEvent.exc ("Timeout") ("request timed out")))
      = PollOutcome.nameErrorRaised ("max_connection_errors")
          (List.replicate 5 (fmtPollError ("Timeout") ("request timed out")))
    ∧ (List.replicate 5 (fmtPollError ("Timeout") ("request timed out"))).length = 5
    ∧ resolvesInPollLoop ("max_connection_errors") = false :=
  ⟨by decide, by decide, by decide⟩

/-- C5: during one run of the poll loop the error log only ever grows (each
non-terminating step extends it), a successful status response resets the
consecutive-error counter to zero without shrinking the log, and a run of
`k < max_errors` consecutive failures followed by a terminal response
returns normally with the full accumulated log of length `k` attached under
`_polling_errors`. -/
theorem C5_error_log_monotone_and_terminal_return :
    (∀ max_errors st ev st2, pollStep max_errors st ev = PollStep.next st2 →
        ∃ tail, st2.error_log = st.error_log ++ tail)
    ∧ (∀ max_errors st r st2,
        pollStep max_errors st (PollEvent.ok r) = PollStep.next st2 →
        st2.connection_error_count = 0 ∧ st2.error_log = st.error_log)
    ∧ (∀ max_errors (errs : List (String × String)) (r : ServiceResult),
        errs.length < max_errors → isTerminalStatus r.status = true →
        _wait_for_translation_results max_errors
            (errs.map (fun p => PollEvent.exc p.1 p.2) ++ [PollEvent.ok r])
          = PollOutcome.returned
              (TranslationResults.mk r.status r.translated_models
                (errs.map (fun p => fmtPollError p.1 p.2)))
        ∧ (errs.map (fun p => fmtPollError p.1 p.2)).length = errs.length) := by
  refine ⟨?_, ?_, ?_⟩
  · intro max_errors st ev st2 h
    cases ev with
    | ok r =>
      simp only [pollStep] at h
      split at h
      · exact PollStep.noConfusion h
      · injection h with h2
        exact ⟨[], by rw [← h2, List.append_nil]⟩
    | exc code msg =>
      simp only [pollStep] at h
      split at h
      · split at h <;> exact PollStep.noConfusion h
      · injection h with h2
        exact ⟨[fmtPollError code msg], by rw [← h2]⟩
  · intro max_errors st r st2 h
    simp only [pollStep] at h
    split at h
    · exact PollStep.noConfusion h
    · injection h with h2
      rw [← h2]
      exact ⟨rfl, rfl⟩
  · intro max_errors errs r hlen hterm
    constructor
    · unfold _wait_for_translation_results
      rw [pollRun_consume_errs max_errors errs _ _ (by simpa using hlen)]
      simp [pollRun, pollStep, hterm]
    · simp

/-- Closed instance of C5: three consecutive transient failures with
`max_errors = 5`, then a terminal response; the loop returns the result with
the three accumulated errors attached; and a non-terminal success step resets
the counter to zero without touching the log. -/
theorem C5_witness :
    (_wait_for_translation_results 5
        ([(("ConnectionError"), ("a")), (("Timeout"), ("b")),
            (("HTTPError"), ("c"))].map (fun p => PollEvent.exc p.1 p.2) ++
          [PollEvent.ok (ServiceResult.mk ("done") [])])
      = PollOutcome.returned
          (TranslationResults.mk ("done") []
            ([(("ConnectionError"), ("a")), (("Timeout"), ("b")),
                (("HTTPError"), ("c"))].map (fun p => fmtPollError p.1 p.2)))
      ∧ ([(("ConnectionError"), ("a")), (("Timeout"), ("b")),
            (("HTTPError"), ("c"))].map (fun p => fmtPollError p.1 p.2)).length = 3)
    ∧ (∃ tail, (PollState.mk 0 ["ConnectionError: a"]).error_log
        = (PollState.mk 2 ["ConnectionError: a"]).error_log ++ tail)
    ∧ ((PollState.mk 0 ["ConnectionError: a"]).connection_error_count = 0
       ∧ (PollState.mk 0 ["ConnectionError: a"]).error_log
          = (PollState.mk 2 ["ConnectionError: a"]).error_log) := by
  refine ⟨?_, ?_, ?_⟩
  · exact C5_error_log_monotone_and_terminal_return.2.2 5
      [(("ConnectionError"), ("a")), (("Timeout"), ("b")), (("HTTPError"), ("c"))]
      (ServiceResult.mk ("done") []) (by decide) (by decide)
  · exact C5_error_log_monotone_and_terminal_return.1 5
      (PollState.mk 2 ["ConnectionError: a"])
      (PollEvent.ok (ServiceResult.mk ("running") []))
      (PollState.mk 0 ["ConnectionError: a"]) (by decide)
  · exact C5_error_log_monotone_and_terminal_return.2.1 5
      (PollState.mk 2 ["ConnectionError: a"])
      (ServiceResult.mk ("running") [])
      (PollState.mk 0 ["ConnectionError: a"]) (by decide)

/-- C10: `_get_host` is a stateful resolver — an explicit host is returned
and stored in the cache, a later call with no host returns the cached value
(and every later such call keeps returning it), and with no host and an empty
cache it returns `DEFAULT_HOST`. -/
theorem C10_get_host_cache_semantics :
    (∀ h cache, _get_host (some h) cache = (h, some h))
    ∧ (∀ h, _get_host none (some h) = (h, some h))
    ∧ _get_host none none = (DEFAULT_HOST, none)
    ∧ (∀ h cache n,
        getHostTrace cache (some h :: List.replicate n none)
          = (h :: List.replicate n h, some h)) := by
  refine ⟨fun h cache => rfl, fun h => rfl, rfl, fun h cache n => ?_⟩
  have aux : ∀ k, getHostTrace (some h) (List.replicate k none)
      = (List.replicate k h, some h) := by
    intro k
    induction k with
    | zero => rfl
    | succ j ih => simp [List.replicate_succ, getHostTrace, _get_host, ih]
  simp [getHostTrace, _get_host, aux n]

/-- C3: the natural-sort key of a model is the pair of the integer value of
the first digit run in its identifier (0 when there is none) and the
identifier itself; `query_2` sorts before `query_10`, both before `query_21`;
an identifier without digits sorts before any identifier whose first digit
run is at least 1; and the model ordering used by the renderer is a permutation sorted
by this key. -/
theorem C3_natural_sort_key_ordering :
    (∀ m, natural_sort_key m = sortKeyOfName (modelFilename m))
    ∧ (∀ s, (sortKeyOfName s).2 = s)
    ∧ sortKeyOfName ("query_2") = (2, "query_2")
    ∧ sortKeyOfName ("query_10") = (10, "query_10")
    ∧ sortKeyOfName ("query_21") = (21, "query_21")
    ∧ keyLt (sortKeyOfName ("query_2")) (sortKeyOfName ("query_10"))
    ∧ keyLt (sortKeyOfName ("query_10")) (sortKeyOfName ("query_21"))
    ∧ (∀ s, firstDigitRun s.data = none → sortKeyOfName s = (0, s))
    ∧ (∀ s t, firstDigitRun s.data = none → 1 ≤ (sortKeyOfName t).1 →
        keyLt (sortKeyOfName s) (sortKeyOfName t))
    ∧ (∀ ms, List.Perm (sortModels ms) ms ∧ List.Sorted modelLe (sortModels ms)) := by
  refine ⟨fun m => rfl, ?_, by decide, by decide, by decide, by decide, by decide,
    ?_, ?_, ?_⟩
  · intro s
    unfold sortKeyOfName
    cases hd : firstDigitRun s.data <;> simp
  · intro s hs
    simp [sortKeyOfName, hs]
  · intro s t hs ht
    have e : sortKeyOfName s = (0, s) := by simp [sortKeyOfName, hs]
    rw [e]
    exact Or.inl (by omega)
  · intro ms
    exact ⟨List.perm_insertionSort modelLe ms, List.sorted_insertionSort modelLe ms⟩

/-- Closed instance of C3: a digit-free identifier gets numeric component 0
and sorts before `query_2`. -/
theorem C3_witness :
    sortKeyOfName ("nodigits") = (0, "nodigits")
    ∧ keyLt (sortKeyOfName ("nodigits")) (sortKeyOfName ("query_2")) :=
  ⟨C3_natural_sort_key_ordering.2.2.2.2.2.2.2.1 ("nodigits") (by decide),
   C3_natural_sort_key_ordering.2.2.2.2.2.2.2.2.1 ("nodigits") ("query_2")
     (by decide) (by decide)⟩

/-- C2: the claim fails on this code. For every results dictionary with a
non-empty `_polling_errors` list, `_translation_results_html` does not return
normally: the local `html = []` shadows the `html` module, so the
`html.escape(err)` call in the polling-errors branch raises
`AttributeError` instead of rendering the Warnings section. -/
theorem C2_nonempty_polling_errors_raise :
    ∀ tr source_type target_type, tr.polling_errors ≠ [] →
      _translation_results_html tr source_type target_type
        = Except.error (PyExc.attributeError
            ("\x27list\x27 object has no attribute \x27escape\x27")) := by
  intro tr source_type target_type h
  simp [_translation_results_html, h]

/-- Closed instance of C2: a successful one-model result with one recorded
polling error makes the renderer raise. -/
theorem C2_witness :
    _translation_results_html c2results ("snowflake") ("databricks")
      = Except.error (PyExc.attributeError
          ("\x27list\x27 object has no attribute \x27escape\x27")) :=
  C2_nonempty_polling_errors_raise c2results ("snowflake") ("databricks") (by decide)

/-- C4: with no translated models and no polling errors the renderer returns
exactly the fixed notice, which contains no collapsible markup at all; but
the claim as universally stated fails: with no models and a non-empty
`_polling_errors` list the function raises `AttributeError` (the `html`
shadowing bug) instead of returning the notice. -/
theorem C4_zero_models_notice :
    (∀ tr source_type target_type,
        tr.translated_models = [] → tr.polling_errors = [] →
        _translation_results_html tr source_type target_type
          = Except.ok ("No queries were translated."))
    ∧ containsSub ("No queries were translated.") ("<") = false
    ∧ _translation_results_html c4emptyErr ("snowflake") ("databricks")
        = Except.error (PyExc.attributeError
            ("\x27list\x27 object has no attribute \x27escape\x27")) := by
  refine ⟨?_, by decide, by decide⟩
  intro tr source_type target_type h1 h2
  simp [_translation_results_html, h1, h2]

/-- Closed instance of C4: the empty result with no polling errors renders
the notice. -/
theorem C4_witness :
    _translation_results_html c4emptyOk ("snowflake") ("databricks")
      = Except.ok ("No queries were translated.") :=
  C4_zero_models_notice.1 c4emptyOk ("snowflake") ("databricks") (by decide) (by decide)

theorem strEmptyAppend (s : String) : "" ++ s = s := by
  apply String.ext
  rw [String.data_append]
  exact List.nil_append s.data

theorem strAppendEmpty (s : String) : s ++ "" = s := by
  apply String.ext
  rw [String.data_append]
  exact List.append_nil s.data

/-- C7: the marker of the collapsible section is the success icon exactly for
status `valid_translation` (any other status gets the warning icon), and a
valid model with non-blank target renders with no Warnings block (its
warning fragment is empty and the whole section content is just the
two-column diff, which is non-empty). -/
theorem C7_success_marker_and_valid_section :
    (∀ status, iconFor status = "✅" ↔ status = VALID_TRANSLATION)
    ∧ (∀ m, buttonTextFor m = iconFor m.translation_status ++ " " ++ modelFilename m)
    ∧ (∀ m source_type target_type,
        m.translation_status = VALID_TRANSLATION →
        has_translation_result m = true →
        warningHtmlFor m = ""
        ∧ _render_translated_model_as_html m source_type target_type
            = renderTemplateA ++ diffHtmlFor m source_type target_type ++ renderTemplateB
        ∧ diffHtmlFor m source_type target_type ≠ "") := by
  refine ⟨?_, fun m => rfl, ?_⟩
  · intro status
    constructor
    · intro h
      by_contra hc
      rw [iconFor, if_neg hc] at h
      exact absurd h (by decide)
    · intro h
      rw [iconFor, if_pos h]
  · intro m source_type target_type hv ht
    have hf : is_failed m = false := by
      simp [is_failed, hv]
    have hw : warningHtmlFor m = "" := by
      simp [warningHtmlFor, hf]
    have hd : diffHtmlFor m source_type target_type ≠ "" := by
      rw [diffHtmlFor, if_pos ht]
      apply strNeEmptyOfDataNeNil
      simp only [ne_eq, String.data_append, List.append_eq_nil, and_assoc]
      intro hc
      exact absurd hc.1 (by decide)
    have hcontent : contentHtmlFor m source_type target_type
        = diffHtmlFor m source_type target_type := by
      simp only [contentHtmlFor, hw, strEmptyAppend]
      rw [if_neg hd]
    exact ⟨hw, by rw [_render_translated_model_as_html, hcontent], hd⟩

/-- Closed instance of C7: the valid model `c7model` renders with no warning
fragment and a non-empty diff, and the marker test holds at
`valid_translation`. -/
theorem C7_witness :
    (iconFor ("valid_translation") = "✅" ↔ ("valid_translation") = VALID_TRANSLATION)
    ∧ (warningHtmlFor c7model = ""
       ∧ _render_translated_model_as_html c7model ("snowflake") ("databricks")
           = renderTemplateA ++ diffHtmlFor c7model ("snowflake") ("databricks")
               ++ renderTemplateB
       ∧ diffHtmlFor c7model ("snowflake") ("databricks") ≠ "") :=
  ⟨C7_success_marker_and_valid_section.1 ("valid_translation"),
   C7_success_marker_and_valid_section.2.2 c7model ("snowflake") ("databricks")
     (by decide) (by decide)⟩

/-- C8 (amended): for a failed model the Warnings block wraps the failure
content; with a structured summary the content renders the labeled Problem,
Error, Solution and Reason text fields and includes the labeled location
field exactly when the location value is present AND non-empty (Python
truthiness) — when the location is absent, None, or the empty string the
location field is omitted entirely (the template skeleton contains no
Location label); without a structured summary a single generic message names
the escaped status. -/
theorem C8_warnings_block_structured_fields :
    (∀ m, is_failed m = true →
        warningHtmlFor m = warningWrapA ++ failureContentFor m ++ warningWrapB)
    ∧ (∀ m fs, m.failure_summary = some fs → truthy fs.location = true →
        ∃ pre post, failureContentFor m
          = pre ++ (locationDivA ++ htmlEscape (fs.location.getD ("")) ++ locationDivB)
              ++ post)
    ∧ (∀ m fs, m.failure_summary = some fs → truthy fs.location = false →
        failureContentFor m
          = failurePartA ++ htmlEscape (fs.problem.getD ("")) ++ failurePartB ++
              failurePartC ++ htmlEscape (fs.error_message.getD ("")) ++ failurePartD ++
              htmlEscape (fs.solution.getD ("")) ++ failurePartE ++
              htmlEscape (fs.reason.getD ("")) ++ failurePartF)
    ∧ containsSub (failurePartA ++ failurePartB ++ failurePartC ++ failurePartD ++
        failurePartE ++ failurePartF) ("Location:") = false
    ∧ containsSub locationDivA ("Location:") = true
    ∧ containsSub failurePartA ("<div class=\"failure-label\">Problem:</div>") = true
    ∧ containsSub failurePartC ("<div class=\"failure-label\">Error:</div>") = true
    ∧ containsSub failurePartD ("<div class=\"failure-label\">Solution:</div>") = true
    ∧ containsSub failurePartE ("<div class=\"failure-label\">Reason:</div>") = true
    ∧ (∀ m, m.failure_summary = none →
        failureContentFor m
          = genericMessageA ++ htmlEscape m.translation_status ++ genericMessageB) := by
  refine ⟨?_, ?_, ?_, by decide, by decide, by decide, by decide, by decide, by decide, ?_⟩
  · intro m hm
    simp [warningHtmlFor, hm]
  · intro m fs hfs hloc
    refine ⟨failurePartA ++ htmlEscape (fs.problem.getD ("")) ++ failurePartB,
      failurePartC ++ htmlEscape (fs.error_message.getD ("")) ++ failurePartD ++
        htmlEscape (fs.solution.getD ("")) ++ failurePartE ++
        htmlEscape (fs.reason.getD ("")) ++ failurePartF, ?_⟩
    simp only [failureContentFor, hfs, hloc, if_true]
    apply String.ext
    simp [String.data_append]
  · intro m fs hfs hloc
    simp only [failureContentFor, hfs, hloc, Bool.false_eq_true, if_false]
    apply String.ext
    simp [String.data_append]
  · intro m hm
    simp [failureContentFor, hm]

/-- Counterexample for C8 as stated: in `c8fs` the location value is present
(the key holds the empty string, not None), yet the rendered warning content
for `c8model` contains no Location field at all. -/
theorem C8_counterexample_location_present_but_omitted :
    c8fs.location ≠ none
    ∧ is_failed c8model = true
    ∧ containsSub (failureContentFor c8model) ("Location:") = false
    ∧ containsSub (warningHtmlFor c8model) ("Location:") = false :=
  ⟨by decide, by decide, by decide, by decide⟩

/-- Closed instance of the amended C8: a non-empty location is rendered as a
labeled field, a failed model without a summary gets the generic message, and
the Warnings wrapper surrounds the content. -/
theorem C8_witness :
    (∃ pre post, failureContentFor c8modelW
        = pre ++ (locationDivA ++ htmlEscape (c8fsW.location.getD ("")) ++ locationDivB)
            ++ post)
    ∧ failureContentFor c8modelG
        = genericMessageA ++ htmlEscape (c8modelG.translation_status) ++ genericMessageB
    ∧ warningHtmlFor c8modelW
        = warningWrapA ++ failureContentFor c8modelW ++ warningWrapB :=
  ⟨C8_warnings_block_structured_fields.2.1 c8modelW c8fsW rfl (by decide),
   C8_warnings_block_structured_fields.2.2.2.2.2.2.2.2.2 c8modelG rfl,
   C8_warnings_block_structured_fields.1 c8modelW (by decide)⟩

/-- C9: the claim fails on this code. The model identifier is interpolated
into the collapsible button without `html.escape`: the whole rendered
document is the style/script block followed by the section, the section
contains the raw identifier `<injected>&` verbatim, the button text carries
it unescaped, and the escaped form is absent from the button text even though
`html.escape` would have produced it. -/
theorem C9_identifier_rendered_unescaped :
    (_translation_results_html c9results ("snowflake") ("databricks")
      = Except.ok (stylePlusScript ++ sectionHtml c9model ("snowflake") ("databricks")))
    ∧ (∃ pre post, sectionHtml c9model ("snowflake") ("databricks")
        = pre ++ ("<injected>&") ++ post)
    ∧ containsSub (buttonTextFor c9model) ("<injected>&") = true
    ∧ containsSub (buttonTextFor c9model) ("&lt;") = false
    ∧ htmlEscape ("<injected>&") = "&lt;injected&gt;&amp;" := by
  refine ⟨?_, ?_, by decide, by decide, by decide⟩
  · calc _translation_results_html c9results ("snowflake") ("databricks")
        = Except.ok (stylePlusScript
            ++ String.join [sectionHtml c9model ("snowflake") ("databricks")]) := rfl
      _ = Except.ok (stylePlusScript
            ++ ("" ++ sectionHtml c9model ("snowflake") ("databricks"))) := rfl
      _ = Except.ok (stylePlusScript
            ++ sectionHtml c9model ("snowflake") ("databricks")) := by
          rw [strEmptyAppend]
  · refine ⟨sectionPartA ++ "✅" ++ " ",
      sectionPartB ++ _render_translated_model_as_html c9model ("snowflake") ("databricks")
        ++ sectionPartC, ?_⟩
    calc sectionHtml c9model ("snowflake") ("databricks")
        = sectionPartA ++ ("✅" ++ " " ++ ("<injected>&")) ++ sectionPartB
            ++ _render_translated_model_as_html c9model ("snowflake") ("databricks")
            ++ sectionPartC := rfl
      _ = sectionPartA ++ "✅" ++ " " ++ ("<injected>&")
            ++ (sectionPartB
              ++ _render_translated_model_as_html c9model ("snowflake") ("databricks")
              ++ sectionPartC) := by
          simp only [strAppendAssoc]

theorem patAt_head_ne {c1 c2 : Char} {p1 p2 s : List Char} (hne : c1 ≠ c2)
    (h : patAt (c1 :: p1) s = true) : patAt (c2 :: p2) s = false := by
  cases s with
  | nil => exact absurd h (by simp [patAt])
  | cons a as =>
    have h1 : c1 = a := by
      have h2 := h
      simp only [patAt, Bool.and_eq_true, beq_iff_eq] at h2
      exact h2.1
    have h3 : (c2 == a) = false := by
      rw [beq_eq_false_iff_ne]
      intro hc
      exact hne (by rw [hc, h1])
    simp [patAt, h3]

/-- C6: one pass over the tagged diff lines builds the two columns — an
unchanged line appears (escaped) in both columns with the unchanged tag, a
minus line only in the left column with the removed tag, a plus line only in
the right column with the added tag, hint lines and anything untagged are
discarded; diffing `a\nb\nc` against `a\nx\nc` yields exactly the unchanged
`a`/`c` rows in both columns, `b` removed on the left only, `x` added on the
right only, and the rendered section of such a model contains both joined
columns. -/
theorem C6_two_column_diff :
    (∀ diff : List String,
        (buildDiffColumns diff).1 = diff.filterMap (fun line =>
            if strStartsWith line ("  ") then
              some (lineUnchangedA ++ htmlEscape (pyDrop line 2) ++ lineDivB)
            else if strStartsWith line ("- ") then
              some (lineRemovedA ++ htmlEscape (pyDrop line 2) ++ lineDivB)
            else none)
        ∧ (buildDiffColumns diff).2 = diff.filterMap (fun line =>
            if strStartsWith line ("  ") then
              some (lineUnchangedA ++ htmlEscape (pyDrop line 2) ++ lineDivB)
            else if strStartsWith line ("+ ") then
              some (lineAddedA ++ htmlEscape (pyDrop line 2) ++ lineDivB)
            else none))
    ∧ differCompare [("a"), ("b"), ("c")] [("a"), ("x"), ("c")]
        = [("  a"), ("- b"), ("+ x"), ("  c")]
    ∧ diffColumnsFor ("a\nb\nc") ("a\nx\nc")
        = ([lineUnchangedA ++ ("a") ++ lineDivB,
            lineRemovedA ++ ("b") ++ lineDivB,
            lineUnchangedA ++ ("c") ++ lineDivB],
           [lineUnchangedA ++ ("a") ++ lineDivB,
            lineAddedA ++ ("x") ++ lineDivB,
            lineUnchangedA ++ ("c") ++ lineDivB])
    ∧ (∃ pre mid post,
        _render_translated_model_as_html c6model ("snowflake") ("databricks")
          = pre ++ String.join (diffColumnsFor ("a\nb\nc") ("a\nx\nc")).1 ++ mid
              ++ String.join (diffColumnsFor ("a\nb\nc") ("a\nx\nc")).2 ++ post) := by
  refine ⟨?_, by decide, by decide, ?_⟩
  · intro diff
    induction diff with
    | nil => exact ⟨rfl, rfl⟩
    | cons l rest ih =>
      by_cases h1 : strStartsWith l ("  ") = true
      · exact ⟨by simp [buildDiffColumns, h1, ih.1],
          by simp [buildDiffColumns, h1, ih.2]⟩
      · by_cases h2 : strStartsWith l ("- ") = true
        · have hp : strStartsWith l ("+ ") = false :=
            patAt_head_ne (by decide) h2
          exact ⟨by simp [buildDiffColumns, h1, h2, ih.1],
            by simp [buildDiffColumns, h1, h2, hp, ih.2]⟩
        · by_cases h3 : strStartsWith l ("+ ") = true
          · exact ⟨by simp [buildDiffColumns, h1, h2, h3, ih.1],
              by simp [buildDiffColumns, h1, h2, h3, ih.2]⟩
          · exact ⟨by simp [buildDiffColumns, h1, h2, h3, ih.1],
              by simp [buildDiffColumns, h1, h2, h3, ih.2]⟩
  · have hc : contentHtmlFor c6model ("snowflake") ("databricks")
        = "" ++ diffHtmlFor c6model ("snowflake") ("databricks") := rfl
    have hd : diffHtmlFor c6model ("snowflake") ("databricks")
        = diffPartA ++ pyTitle ("snowflake") ++ diffPartB
            ++ String.join (diffColumnsFor ("a\nb\nc") ("a\nx\nc")).1
            ++ diffPartC ++ pyTitle ("databricks") ++ diffPartD
            ++ String.join (diffColumnsFor ("a\nb\nc") ("a\nx\nc")).2
            ++ diffPartE := rfl
    refine ⟨renderTemplateA ++ diffPartA ++ pyTitle ("snowflake") ++ diffPartB,
      diffPartC ++ pyTitle ("databricks") ++ diffPartD,
      diffPartE ++ renderTemplateB, ?_⟩
    calc _render_translated_model_as_html c6model ("snowflake") ("databricks")
        = renderTemplateA ++ contentHtmlFor c6model ("snowflake") ("databricks")
            ++ renderTemplateB := rfl
      _ = renderTemplateA ++ diffHtmlFor c6model ("snowflake") ("databricks")
            ++ renderTemplateB := by rw [hc, strEmptyAppend]
      _ = renderTemplateA ++ (diffPartA ++ pyTitle ("snowflake") ++ diffPartB
            ++ String.join (diffColumnsFor ("a\nb\nc") ("a\nx\nc")).1
            ++ diffPartC ++ pyTitle ("databricks") ++ diffPartD
            ++ String.join (diffColumnsFor ("a\nb\nc") ("a\nx\nc")).2
            ++ diffPartE) ++ renderTemplateB := by rw [hd]
      _ = renderTemplateA ++ diffPartA ++ pyTitle ("snowflake") ++ diffPartB
            ++ String.join (diffColumnsFor ("a\nb\nc") ("a\nx\nc")).1
            ++ (diffPartC ++ pyTitle ("databricks") ++ diffPartD)
            ++ String.join (diffColumnsFor ("a\nb\nc") ("a\nx\nc")).2
            ++ (diffPartE ++ renderTemplateB) := by
          simp only [strAppendAssoc]
